import Mathlib

/-!
Shallow embedding of the weather-condition / forecast-trend analyzer of
`src/utils/analyzer.py` (Weather Intelligence System).

Conventions of the embedding:
* Python numbers are modelled as `ℚ`; every threshold in the source is an
  exactly representable decimal, so rational arithmetic is faithful.
* A Python dict field read with `.get(k)` / `.get(k, default)` is modelled by
  an `Option` field; `none` means the key is absent.
* Human-readable highlight strings are modelled by the inductive `Highlight`,
  one constructor per emission site, carrying the numeric payloads that the
  source interpolates into the f-string.  Condition tags are kept as the
  literal strings of the source.
* Non-integer thresholds of the source (`0.5`, `1.5`) are written with
  `mkRat` (`mkRat 1 2 = 0.5`, `mkRat 3 2 = 1.5`, exactly) so that every
  definition evaluates inside the kernel.
* Python operations that can raise (`xs[-1]`, `xs[0]`, `max`/`min` of a list,
  division by a length) are modelled by `Option`-returning primitives
  (`pyLast`, `pyHead`, `pyMax`, `pyMin`, `pyDiv`) and the analyzer functions
  are written in the `Option` monad; `none` models an uncaught exception.
-/

/-- One weather reading: the optional numeric/string fields that
`analyzer.py` reads from a current-weather or forecast dict. -/
structure WeatherReading where
  temperature : Option ℚ := none
  humidity : Option ℚ := none
  pressure : Option ℚ := none
  wind_speed : Option ℚ := none
  cloud_cover : Option ℚ := none
  precipitation_mm : Option ℚ := none
  precipitation_probability : Option ℚ := none
  symbol_code : Option String := none
  timestamp : Option String := none
deriving DecidableEq, Repr

/-- The empty Python dict `{}` viewed as a reading. -/
def emptyReading : WeatherReading := {}

/-- A top-level Python dict input: it may carry a `"current_weather"` key
(whose value is a reading dict), a `"forecast"` key (a list of reading
dicts), and reading-shaped fields of its own. -/
structure WeatherDict where
  current_weather : Option WeatherReading := none
  forecast : Option (List WeatherReading) := none
  reading : WeatherReading := emptyReading
deriving DecidableEq, Repr

/-- The input universe of `analyze_patterns`: `None`, a dict, or a list of
dicts (the backward-compatibility format). -/
inductive WeatherData where
  | pyNone : WeatherData
  | dict : WeatherDict → WeatherData
  | list : List WeatherDict → WeatherData
deriving DecidableEq, Repr

/-- `True` iff all reading fields are absent: the reading is the empty dict. -/
def WeatherReading.allAbsent (r : WeatherReading) : Bool :=
  r.temperature.isNone && r.humidity.isNone && r.pressure.isNone &&
  r.wind_speed.isNone && r.cloud_cover.isNone && r.precipitation_mm.isNone &&
  r.precipitation_probability.isNone && r.symbol_code.isNone && r.timestamp.isNone

/-- Python truth-value of the top-level input (`if not data:`):
`None`, the empty dict `{}` and the empty list `[]` are falsy. -/
def WeatherData.pyFalsy : WeatherData → Bool
  | .pyNone => true
  | .dict d => d.current_weather.isNone && d.forecast.isNone && d.reading.allAbsent
  | .list l => l.isEmpty

/-- `extract_weather_data` (analyzer.py lines 8-32): split the input into a
current reading and a forecast list.  A dict with both a `current_weather`
and a `forecast` key is the Go-collector format; otherwise the dict itself is
the current reading and its embedded `forecast` (if any) is used; a non-empty
list uses its first element the same way; anything else yields `({}, [])`. -/
def extract_weather_data : WeatherData → WeatherReading × List WeatherReading
  | .dict d =>
      if d.current_weather.isSome && d.forecast.isSome then
        (d.current_weather.getD emptyReading, d.forecast.getD [])
      else
        (d.reading, d.forecast.getD [])
  | .list (first :: _) => (first.reading, first.forecast.getD [])
  | .list [] => (emptyReading, [])
  | .pyNone => (emptyReading, [])

/-- `analyze_temperature_conditions` (lines 35-49). -/
def analyze_temperature_conditions : Option ℚ → List String
  | none => []
  | some t =>
      if t < 0 then ["freezing_temperature"]
      else if t > 30 then ["hot_temperature"]
      else if 20 ≤ t ∧ t ≤ 25 then ["comfortable_temperature"]
      else if t < 5 then ["very_cold_temperature"]
      else if t > 25 then ["warm_temperature"]
      else []

/-- `analyze_humidity_conditions` (lines 52-62). -/
def analyze_humidity_conditions : Option ℚ → List String
  | none => []
  | some h =>
      if h > 80 then ["high_humidity"]
      else if h > 60 then ["moderate_humidity"]
      else if h < 30 then ["low_humidity"]
      else []

/-- `analyze_pressure_conditions` (lines 65-77). -/
def analyze_pressure_conditions : Option ℚ → List String
  | none => []
  | some p =>
      if p < 1000 then ["low_pressure"]
      else if p > 1030 then ["high_pressure"]
      else if p < 1013 then ["below_average_pressure"]
      else if p > 1020 then ["above_average_pressure"]
      else []

/-- Python `s.startswith(pre)`, modelled on the character lists so that it
reduces in the kernel. -/
def pyStartswith (s pre : String) : Bool :=
  List.isPrefixOf pre.data s.data

/-- `analyze_precipitation_conditions` (lines 80-95); `precipitation` is the
caller's `current_weather.get("precipitation_mm", 0)`. -/
def analyze_precipitation_conditions (precipitation : ℚ)
    (current_weather : WeatherReading) : List String :=
  if precipitation > 0 then
    if precipitation < mkRat 1 2 then ["light_precipitation"]
    else if precipitation > 5 then ["heavy_precipitation"]
    else ["moderate_precipitation"]
  else if precipitation = 0 ∧
      pyStartswith (current_weather.symbol_code.getD "") "rain" then
    ["potential_precipitation"]
  else []

/-- `analyze_wind_conditions` (lines 98-109). -/
def analyze_wind_conditions : Option ℚ → List String
  | none => []
  | some w =>
      if w > 15 then ["high_wind_warning"]
      else if w > 8 then ["moderate_wind_warning"]
      else if w > 3 then ["light_wind_condition"]
      else []

/-- `analyze_cloud_cover_conditions` (lines 112-125). -/
def analyze_cloud_cover_conditions : Option ℚ → List String
  | none => []
  | some c =>
      if c > 90 then ["overcast_conditions"]
      else if c > 70 then ["mostly_cloudy"]
      else if c > 40 then ["partly_cloudy"]
      else if c < 20 then ["clear_sky_conditions"]
      else []

/-- `analyze_temperature_precipitation_conditions` (lines 128-137). -/
def analyze_temperature_precipitation_conditions (temp : Option ℚ)
    (precipitation : ℚ) : List String :=
  match temp with
  | none => []
  | some t =>
      if precipitation > 0 then
        if t < 0 then ["freezing_precipitation_warning"]
        else if t < 4 ∧ precipitation > mkRat 1 2 then ["snow_rain_mix_warning"]
        else []
      else []

/-- `analyze_precipitation_probability_conditions` (lines 140-150). -/
def analyze_precipitation_probability_conditions (precipitation_prob : ℚ) :
    List String :=
  if precipitation_prob > 70 then ["very_high_precipitation_probability"]
  else if precipitation_prob > 40 then ["high_precipitation_probability"]
  else if precipitation_prob > 20 then ["moderate_precipitation_probability"]
  else []

/-- `analyze_atmospheric_conditions` (lines 153-161). -/
def analyze_atmospheric_conditions (temp humidity : Option ℚ) : List String :=
  match temp, humidity with
  | some t, some h => if t > 20 ∧ h > 60 then ["humid_and_warm_condition"] else []
  | _, _ => []

/-- `analyze_detailed_weather_conditions` (lines 164-186). -/
def analyze_detailed_weather_conditions (current_weather : WeatherReading) :
    List String :=
  analyze_wind_conditions current_weather.wind_speed ++
  analyze_cloud_cover_conditions current_weather.cloud_cover ++
  analyze_temperature_precipitation_conditions current_weather.temperature
    (current_weather.precipitation_mm.getD 0) ++
  analyze_precipitation_probability_conditions
    (current_weather.precipitation_probability.getD 0) ++
  analyze_atmospheric_conditions current_weather.temperature
    current_weather.humidity

/-- One human-readable forecast highlight, one constructor per emission site
of `analyzer.py`, carrying the interpolated numeric payloads. -/
inductive Highlight where
  | tempRisingNext (delta : ℚ) (hours : ℕ)
  | tempDroppingNext (delta : ℚ) (hours : ℕ)
  | slightTempRise (delta : ℚ)
  | slightTempDrop (delta : ℚ)
  | pressureIncreasing (delta : ℚ)
  | pressureDropping (delta : ℚ)
  | slightPressureRise (delta : ℚ)
  | slightPressureDrop (delta : ℚ)
  | snowExpected (total : ℚ) (hours : ℕ)
  | mixExpected (total : ℚ) (hours : ℕ)
  | rainExpected (total : ℚ) (hours : ℕ)
  | highConfidencePrecip (prob : ℚ)
  | chanceOfPrecip (prob : ℚ)
  | precipSoon
  | precipClearing
  | strongWindsNext (w : ℚ) (hours : ℕ)
  | windIncreasingNext (w : ℚ) (hours : ℕ)
  | windIncreasing (w : ℚ)
  | windDecreasing (w : ℚ)
  | humidityIncreasing (delta : ℚ)
  | humidityDecreasing (delta : ℚ)
  | largeTempSwing (range : ℚ)
  | moderateTempSwing (range : ℚ)
  | high48 (t : ℚ)
  | low48 (t : ℚ)
  | freezing48 (t : ℚ)
  | snow48 (total : ℚ)
  | mix48 (total : ℚ)
  | heavyRain48 (total : ℚ)
  | rain48 (total : ℚ)
  | precipClearing48
  | strongWinds48 (w : ℚ)
  | moderateWinds48 (w : ℚ)
  | sustainedWinds (avg : ℚ)
  | pressureDrop48 (trend : ℚ)
  | pressureRise48 (trend : ℚ)
  | smallPressureChange48 (isRise : Bool) (trend : ℚ)
deriving DecidableEq, Repr

/-- The `{"conditions": [...], "highlights": [...]}` dicts built by the
trend analyzers. -/
structure ForecastInsights where
  conditions : List String
  highlights : List Highlight
deriving DecidableEq, Repr

/-- Python `xs[-1]`: raises `IndexError` on an empty list. -/
def pyLast (xs : List ℚ) : Option ℚ := xs.getLast?

/-- Python `xs[0]`: raises `IndexError` on an empty list. -/
def pyHead (xs : List ℚ) : Option ℚ := xs.head?

/-- Python `max(xs)`: raises `ValueError` on an empty list. -/
def pyMax : List ℚ → Option ℚ
  | [] => none
  | x :: xs => some (xs.foldl max x)

/-- Python `min(xs)`: raises `ValueError` on an empty list. -/
def pyMin : List ℚ → Option ℚ
  | [] => none
  | x :: xs => some (xs.foldl min x)

/-- Python `a / b`: raises `ZeroDivisionError` when `b = 0`. -/
def pyDiv (a b : ℚ) : Option ℚ := if b = 0 then none else some (a / b)

/-- `analyze_temperature_trends` (lines 270-299). -/
def analyze_temperature_trends (near_term : List WeatherReading)
    (current_temp : ℚ) : Option ForecastInsights :=
  let temps := (near_term.filter (fun f => f.temperature.isSome)).map
    (fun f => f.temperature.getD current_temp)
  if temps.isEmpty then some ⟨[], []⟩
  else do
    let lastT ← pyLast temps
    let temp_change := lastT - current_temp
    if temp_change > mkRat 3 2 then
      pure ⟨["warming_trend"],
        [.tempRisingNext temp_change (min 12 near_term.length)]⟩
    else if temp_change < -mkRat 3 2 then
      pure ⟨["cooling_trend"],
        [.tempDroppingNext |temp_change| (min 12 near_term.length)]⟩
    else if |temp_change| > mkRat 1 2 then
      if temp_change > 0 then pure ⟨[], [.slightTempRise temp_change]⟩
      else pure ⟨[], [.slightTempDrop |temp_change|]⟩
    else pure ⟨[], []⟩

/-- `analyze_pressure_trends` (lines 302-331). -/
def analyze_pressure_trends (near_term : List WeatherReading)
    (current_pressure : ℚ) : Option ForecastInsights :=
  let pressures := (near_term.filter (fun f => f.pressure.isSome)).map
    (fun f => f.pressure.getD current_pressure)
  if pressures.isEmpty then some ⟨[], []⟩
  else do
    let lastP ← pyLast pressures
    let pressure_change := lastP - current_pressure
    if pressure_change > 2 then
      pure ⟨["pressure_rising"], [.pressureIncreasing pressure_change]⟩
    else if pressure_change < -2 then
      pure ⟨["pressure_dropping"], [.pressureDropping |pressure_change|]⟩
    else if |pressure_change| > mkRat 1 2 then
      if pressure_change > 0 then pure ⟨[], [.slightPressureRise pressure_change]⟩
      else pure ⟨[], [.slightPressureDrop |pressure_change|]⟩
    else pure ⟨[], []⟩

/-- Hours of the window whose temperature (defaulting to `current_temp`) is
below 2 °C and whose precipitation is positive (lines 346-351). -/
def coldPrecipCount (near_term : List WeatherReading) (current_temp : ℚ) : ℕ :=
  (near_term.filter (fun f =>
    decide (f.temperature.getD current_temp < 2 ∧
      f.precipitation_mm.getD 0 > 0))).length

/-- Hours above 4 °C with positive precipitation (lines 352-357). -/
def warmPrecipCount (near_term : List WeatherReading) (current_temp : ℚ) : ℕ :=
  (near_term.filter (fun f =>
    decide (f.temperature.getD current_temp > 4 ∧
      f.precipitation_mm.getD 0 > 0))).length

/-- Hours in the 2..4 °C band with positive precipitation (lines 358-363). -/
def mixPrecipCount (near_term : List WeatherReading) (current_temp : ℚ) : ℕ :=
  (near_term.filter (fun f =>
    decide (2 ≤ f.temperature.getD current_temp ∧
      f.temperature.getD current_temp ≤ 4 ∧
      f.precipitation_mm.getD 0 > 0))).length

/-- `analyze_precipitation_trends` (lines 334-407). -/
def analyze_precipitation_trends (near_term : List WeatherReading)
    (current_weather : WeatherReading) : Option ForecastInsights :=
  let precipitations := near_term.map (fun f => f.precipitation_mm.getD 0)
  let precipitation_probs :=
    near_term.map (fun f => f.precipitation_probability.getD 0)
  if precipitations.any (fun p => p > 0) then do
    let total_precip := precipitations.sum
    let max_precip_prob ←
      if precipitation_probs.isEmpty then pure 0
      else pyMax precipitation_probs
    let current_temp := current_weather.temperature.getD 0
    let cold := coldPrecipCount near_term current_temp
    let warm := warmPrecipCount near_term current_temp
    let mixed := mixPrecipCount near_term current_temp
    let typed : ForecastInsights :=
      if cold > warm ∧ cold > mixed then
        ⟨["snow_precipitation_expected"],
          [.snowExpected total_precip (min 12 near_term.length)]⟩
      else if mixed > 0 then
        ⟨["mix_precipitation_expected"],
          [.mixExpected total_precip (min 12 near_term.length)]⟩
      else
        ⟨["precipitation_expected"],
          [.rainExpected total_precip (min 12 near_term.length)]⟩
    let probHighlights : List Highlight :=
      if max_precip_prob > 50 then [.highConfidencePrecip max_precip_prob]
      else if max_precip_prob > 20 then [.chanceOfPrecip max_precip_prob]
      else []
    pure ⟨typed.conditions, typed.highlights ++ probHighlights⟩
  else if (precipitations.take 3).any (fun p => p > 0) then
    some ⟨["precipitation_soon"], [.precipSoon]⟩
  else if current_weather.precipitation_mm.getD 0 > 0 ∧
      precipitations.all (fun p => p = 0) then
    some ⟨["clearing_trend"], [.precipClearing]⟩
  else some ⟨[], []⟩

/-- `analyze_wind_trends` (lines 410-450). -/
def analyze_wind_trends (near_term : List WeatherReading)
    (current_weather : WeatherReading) : Option ForecastInsights :=
  let winds := (near_term.filter (fun f => f.wind_speed.isSome)).map
    (fun f => f.wind_speed.getD 0)
  if winds.isEmpty then some ⟨[], []⟩
  else do
    let max_wind ← pyMax winds
    let wind_change :=
      if current_weather.wind_speed.isSome then
        max_wind - current_weather.wind_speed.getD 0
      else 0
    let part1 : ForecastInsights :=
      if max_wind > 12 then
        ⟨["high_wind_warning_forecast"],
          [.strongWindsNext max_wind (min 12 near_term.length)]⟩
      else if wind_change > 3 then
        ⟨["increasing_wind_forecast"],
          [.windIncreasingNext max_wind (min 12 near_term.length)]⟩
      else if wind_change > mkRat 3 2 then ⟨[], [.windIncreasing max_wind]⟩
      else ⟨[], []⟩
    let min_wind ← pyMin winds
    let wind_change_min :=
      if current_weather.wind_speed.isSome then
        min_wind - current_weather.wind_speed.getD 0
      else 0
    let part2 : List Highlight :=
      if wind_change_min < -mkRat 3 2 then [.windDecreasing min_wind] else []
    pure ⟨part1.conditions, part1.highlights ++ part2⟩

/-- `analyze_humidity_trends` (lines 453-476). -/
def analyze_humidity_trends (near_term : List WeatherReading)
    (current_weather : WeatherReading) : Option ForecastInsights :=
  let humidities := (near_term.filter (fun f => f.humidity.isSome)).map
    (fun f => f.humidity.getD (current_weather.humidity.getD 0))
  if humidities.isEmpty then some ⟨[], []⟩
  else do
    let avg_humidity ← pyDiv humidities.sum (humidities.length : ℚ)
    let humidity_change :=
      if current_weather.humidity.isSome then
        avg_humidity - current_weather.humidity.getD 0
      else 0
    if humidity_change > 10 then
      pure ⟨[], [.humidityIncreasing humidity_change]⟩
    else if humidity_change < -10 then
      pure ⟨[], [.humidityDecreasing humidity_change]⟩
    else pure ⟨[], []⟩

/-- `analyze_medium_term_temperature` (lines 479-512): the source returns a
dict with a `highlights` key only, modelled as the highlight list. -/
def analyze_medium_term_temperature (medium_term : List WeatherReading) :
    Option (List Highlight) :=
  let temps_medium := (medium_term.filter (fun f => f.temperature.isSome)).map
    (fun f => f.temperature.getD 0)
  if temps_medium.isEmpty then some []
  else do
    let max_temp ← pyMax temps_medium
    let min_temp ← pyMin temps_medium
    let temp_range := max_temp - min_temp
    let swing : List Highlight :=
      if temp_range > 8 then [.largeTempSwing temp_range]
      else if temp_range > 5 then [.moderateTempSwing temp_range]
      else []
    let h1 : List Highlight := if max_temp > 25 then [.high48 max_temp] else []
    let h2 : List Highlight := if min_temp < 5 then [.low48 min_temp] else []
    let h3 : List Highlight := if min_temp < 0 then [.freezing48 min_temp] else []
    pure (swing ++ h1 ++ h2 ++ h3)

/-- Medium-term band counts (lines 519-533): note the source defaults an
absent temperature to 10 here, unlike the near-term analyzer. -/
def coldHoursCount (medium_term : List WeatherReading) : ℕ :=
  (medium_term.filter (fun f =>
    decide (f.temperature.getD 10 < 2 ∧ f.precipitation_mm.getD 0 > 0))).length

/-- Medium-term warm-band count (temperature above 4, default 10). -/
def warmHoursCount (medium_term : List WeatherReading) : ℕ :=
  (medium_term.filter (fun f =>
    decide (f.temperature.getD 10 > 4 ∧ f.precipitation_mm.getD 0 > 0))).length

/-- Medium-term mix-band count (temperature in 2..4, default 10). -/
def mixHoursCount (medium_term : List WeatherReading) : ℕ :=
  (medium_term.filter (fun f =>
    decide (2 ≤ f.temperature.getD 10 ∧ f.temperature.getD 10 ≤ 4 ∧
      f.precipitation_mm.getD 0 > 0))).length

/-- `analyze_medium_term_precipitation` (lines 515-558): total, no fallible
operation; its `conditions` list is never appended to in the source. -/
def analyze_medium_term_precipitation (medium_term : List WeatherReading)
    (forecast_data : List WeatherReading) : ForecastInsights :=
  let total := (medium_term.map (fun f => f.precipitation_mm.getD 0)).sum
  let cold := coldHoursCount medium_term
  let warm := warmHoursCount medium_term
  let mixed := mixHoursCount medium_term
  if total > 0 then
    if cold > warm ∧ cold > mixed then ⟨[], [.snow48 total]⟩
    else if mixed > 0 then ⟨[], [.mix48 total]⟩
    else if total > 10 then ⟨[], [.heavyRain48 total]⟩
    else ⟨[], [.rain48 total]⟩
  else if total = 0 ∧
      (forecast_data.take 12).any (fun f => f.precipitation_mm.getD 0 > 0) then
    ⟨[], [.precipClearing48]⟩
  else ⟨[], []⟩

/-- `analyze_medium_term_wind` (lines 561-585). -/
def analyze_medium_term_wind (medium_term : List WeatherReading) :
    Option ForecastInsights :=
  let winds_medium := (medium_term.filter (fun f => f.wind_speed.isSome)).map
    (fun f => f.wind_speed.getD 0)
  if winds_medium.isEmpty then some ⟨[], []⟩
  else do
    let max_wind_medium ← pyMax winds_medium
    let avg_wind_medium ←
      if winds_medium.isEmpty then pure 0
      else pyDiv winds_medium.sum (winds_medium.length : ℚ)
    if max_wind_medium > 18 then
      pure ⟨["high_wind_warning"], [.strongWinds48 max_wind_medium]⟩
    else if max_wind_medium > 12 then
      pure ⟨[], [.moderateWinds48 max_wind_medium]⟩
    else if avg_wind_medium > 8 then
      pure ⟨[], [.sustainedWinds avg_wind_medium]⟩
    else pure ⟨[], []⟩

/-- `analyze_medium_term_pressure` (lines 588-614). -/
def analyze_medium_term_pressure (medium_term : List WeatherReading)
    (current_pressure : ℚ) : Option ForecastInsights :=
  let pressures_medium := (medium_term.filter (fun f => f.pressure.isSome)).map
    (fun f => f.pressure.getD current_pressure)
  if pressures_medium.length > 1 then do
    let lastP ← pyLast pressures_medium
    let firstP ← pyHead pressures_medium
    let pressure_trend := lastP - firstP
    if pressure_trend < -5 then
      pure ⟨(if pressure_trend < -10 then ["storm_prediction"] else []),
        [.pressureDrop48 pressure_trend]⟩
    else if pressure_trend > 5 then
      pure ⟨[], [.pressureRise48 pressure_trend]⟩
    else if |pressure_trend| > 1 then
      pure ⟨[], [.smallPressureChange48 (decide (pressure_trend > 0))
        pressure_trend]⟩
    else pure ⟨[], []⟩
  else some ⟨[], []⟩

/-- `analyze_forecast_trends` (lines 617-685).  Note the merge at the end of
the source: for the medium-term analyzers only the *precipitation* analyzer's
`conditions` list is folded into the result (line 683); the `conditions`
lists of the medium-term wind and pressure analyzers are dropped. -/
def analyze_forecast_trends (forecast_data : List WeatherReading)
    (current_weather : WeatherReading) : Option ForecastInsights :=
  if forecast_data.isEmpty then some ⟨[], []⟩
  else do
    let current_temp := current_weather.temperature.getD 0
    let current_pressure := current_weather.pressure.getD 1013
    let near_term := forecast_data.take 12
    let nearPart : ForecastInsights ←
      if near_term.length > 0 then do
        let t ← analyze_temperature_trends near_term current_temp
        let p ← analyze_pressure_trends near_term current_pressure
        let pr ← analyze_precipitation_trends near_term current_weather
        let w ← analyze_wind_trends near_term current_weather
        let h ← analyze_humidity_trends near_term current_weather
        pure (⟨t.conditions ++ p.conditions ++ pr.conditions ++
                w.conditions ++ h.conditions,
              t.highlights ++ p.highlights ++ pr.highlights ++
                w.highlights ++ h.highlights⟩ : ForecastInsights)
      else pure (⟨[], []⟩ : ForecastInsights)
    let medium_term := forecast_data.take 48
    let medPart : ForecastInsights ←
      if medium_term.length > 24 then do
        let tm ← analyze_medium_term_temperature medium_term
        let pm := analyze_medium_term_precipitation medium_term forecast_data
        let wm ← analyze_medium_term_wind medium_term
        let prm ← analyze_medium_term_pressure medium_term current_pressure
        pure (⟨pm.conditions,
               tm ++ pm.highlights ++ wm.highlights ++ prm.highlights⟩ :
          ForecastInsights)
      else pure (⟨[], []⟩ : ForecastInsights)
    pure ⟨nearPart.conditions ++ medPart.conditions,
          nearPart.highlights ++ medPart.highlights⟩

/-- Value of the `forecast_insights` key of the result dict: the key can be
absent (minimal result), hold the Python literal `[]` (non-empty input, empty
forecast), or hold an insights dict. -/
inductive FIField where
  | absent : FIField
  | emptyList : FIField
  | insights : ForecastInsights → FIField
deriving DecidableEq, Repr

/-- The result dict of `analyze_patterns`; `none` on an `Option`-typed field
means the key is absent (it only happens in the minimal falsy-input result,
and for `forecast_highlights` when the forecast is empty). -/
structure Analysis where
  status : String
  patterns_detected : ℕ
  trend : String
  data_points : ℕ
  timestamp : Option String
  forecast_hours : Option ℕ
  conditions_detected : Option (List String)
  forecast_insights : FIField
  summary : Option String
  forecast_highlights : Option (List Highlight)
deriving DecidableEq, Repr

/-- The short-circuit result for falsy input (lines 199-205). -/
def minimalAnalysis : Analysis where
  status := "No data to analyze"
  patterns_detected := 0
  trend := "unknown"
  data_points := 0
  timestamp := none
  forecast_hours := none
  conditions_detected := none
  forecast_insights := .absent
  summary := none
  forecast_highlights := none

/-- The summary string (lines 255-261). -/
def mkSummary (conditions : List String) : String :=
  if conditions.isEmpty then "Normal weather conditions"
  else "Detected " ++ toString conditions.length ++ " notable conditions: " ++
    String.intercalate ", " conditions

/-- The five current-condition classifier groups run by `analyze_patterns`
(lines 237-243), concatenated in source order. -/
def baseConditions (current_weather : WeatherReading) : List String :=
  analyze_temperature_conditions current_weather.temperature ++
  analyze_humidity_conditions current_weather.humidity ++
  analyze_pressure_conditions current_weather.pressure ++
  analyze_precipitation_conditions (current_weather.precipitation_mm.getD 0)
    current_weather ++
  analyze_detailed_weather_conditions current_weather

/-- The non-minimal result dict (lines 214-225 build the base dict, lines
251-265 fill in conditions, `patterns_detected = len(conditions)`, insights,
summary, and — when the insights dict is truthy — the highlights key). -/
def mkAnalysis (current_weather : WeatherReading)
    (forecast_data : List WeatherReading) (conds : List String)
    (fif : FIField) (hl : Option (List Highlight)) : Analysis where
  status := "Analysis complete"
  patterns_detected := conds.length
  trend := if 1 + forecast_data.length < 2 then "insufficient_data" else "analyzing"
  data_points := 1 + forecast_data.length
  timestamp := some (current_weather.timestamp.getD "unknown")
  forecast_hours := some forecast_data.length
  conditions_detected := some conds
  forecast_insights := fif
  summary := some (mkSummary conds)
  forecast_highlights := hl

/-- `analyze_patterns` (lines 189-267). -/
def analyze_patterns (data : WeatherData) : Option Analysis :=
  if data.pyFalsy then some minimalAnalysis
  else
    let current_weather := (extract_weather_data data).1
    let forecast_data := (extract_weather_data data).2
    if forecast_data.length > 0 then
      (analyze_forecast_trends forecast_data current_weather).bind fun fi =>
        some (mkAnalysis current_weather forecast_data
          (baseConditions current_weather ++ fi.conditions)
          (.insights fi) (some fi.highlights))
    else
      some (mkAnalysis current_weather forecast_data
        (baseConditions current_weather) .emptyList none)

/-! ## Totality of the fallible primitives under their source-side guards -/

theorem pyLast_isSome (xs : List ℚ) (h : xs ≠ []) : ∃ q, pyLast xs = some q := by
  cases hq : xs.getLast? with
  | none => exact absurd (List.getLast?_eq_none_iff.mp hq) h
  | some q => exact ⟨q, hq⟩

theorem pyHead_isSome (xs : List ℚ) (h : xs ≠ []) : ∃ q, pyHead xs = some q := by
  cases xs with
  | nil => exact absurd rfl h
  | cons a as => exact ⟨a, rfl⟩

theorem pyMax_isSome (xs : List ℚ) (h : xs ≠ []) : ∃ q, pyMax xs = some q := by
  cases xs with
  | nil => exact absurd rfl h
  | cons a as => exact ⟨as.foldl max a, rfl⟩

theorem pyMin_isSome (xs : List ℚ) (h : xs ≠ []) : ∃ q, pyMin xs = some q := by
  cases xs with
  | nil => exact absurd rfl h
  | cons a as => exact ⟨as.foldl min a, rfl⟩

theorem pyDiv_isSome (a b : ℚ) (h : b ≠ 0) : ∃ q, pyDiv a b = some q :=
  ⟨a / b, by simp [pyDiv, h]⟩

/-! ## Totality of the trend analyzers: every guarded access succeeds -/

theorem analyze_temperature_trends_total (near_term : List WeatherReading)
    (current_temp : ℚ) :
    ∃ i, analyze_temperature_trends near_term current_temp = some i := by
  unfold analyze_temperature_trends
  set temps := (near_term.filter (fun f => f.temperature.isSome)).map
    (fun f => f.temperature.getD current_temp) with htemps
  by_cases h : temps = []
  · exact ⟨⟨[], []⟩, by simp [h]⟩
  · obtain ⟨q, hq⟩ := pyLast_isSome (temps) h
    simp only [List.isEmpty_iff, h, if_false, hq, Option.bind_eq_bind,
      Option.some_bind]
    repeat' split
    all_goals exact ⟨_, rfl⟩

theorem analyze_pressure_trends_total (near_term : List WeatherReading)
    (current_pressure : ℚ) :
    ∃ i, analyze_pressure_trends near_term current_pressure = some i := by
  unfold analyze_pressure_trends
  set pressures := (near_term.filter (fun f => f.pressure.isSome)).map
    (fun f => f.pressure.getD current_pressure) with hps
  by_cases h : pressures = []
  · exact ⟨⟨[], []⟩, by simp [h]⟩
  · obtain ⟨q, hq⟩ := pyLast_isSome (pressures) h
    simp only [List.isEmpty_iff, h, if_false, hq, Option.bind_eq_bind,
      Option.some_bind]
    repeat' split
    all_goals exact ⟨_, rfl⟩

theorem analyze_precipitation_trends_total (near_term : List WeatherReading)
    (current_weather : WeatherReading) :
    ∃ i, analyze_precipitation_trends near_term current_weather = some i := by
  unfold analyze_precipitation_trends
  by_cases h : (near_term.map (fun f => f.precipitation_mm.getD 0)).any
    (fun p => p > 0)
  · have hne : near_term ≠ [] := by
      intro hnil; rw [hnil] at h; simp at h
    have hprobs : (near_term.map
        (fun f => f.precipitation_probability.getD 0)) ≠ [] := by
      simpa using hne
    obtain ⟨q, hq⟩ := pyMax_isSome (near_term.map
      (fun f => f.precipitation_probability.getD 0)) hprobs
    simp only [h, if_true, List.isEmpty_iff, hprobs, if_false, hq,
      Option.bind_eq_bind, Option.some_bind]
    exact ⟨_, rfl⟩
  · simp only [h, if_false]
    repeat' split
    all_goals first
      | contradiction
      | exact ⟨_, rfl⟩

theorem analyze_wind_trends_total (near_term : List WeatherReading)
    (current_weather : WeatherReading) :
    ∃ i, analyze_wind_trends near_term current_weather = some i := by
  unfold analyze_wind_trends
  set winds := (near_term.filter (fun f => f.wind_speed.isSome)).map
    (fun f => f.wind_speed.getD 0) with hw
  by_cases h : winds = []
  · exact ⟨⟨[], []⟩, by simp [h]⟩
  · obtain ⟨q1, hq1⟩ := pyMax_isSome (winds) h
    obtain ⟨q2, hq2⟩ := pyMin_isSome (winds) h
    simp only [List.isEmpty_iff, h, if_false, hq1, hq2, Option.bind_eq_bind,
      Option.some_bind]
    exact ⟨_, rfl⟩

theorem analyze_humidity_trends_total (near_term : List WeatherReading)
    (current_weather : WeatherReading) :
    ∃ i, analyze_humidity_trends near_term current_weather = some i := by
  unfold analyze_humidity_trends
  set hums := (near_term.filter (fun f => f.humidity.isSome)).map
    (fun f => f.humidity.getD (current_weather.humidity.getD 0)) with hh
  by_cases h : hums = []
  · exact ⟨⟨[], []⟩, by simp [h]⟩
  · obtain ⟨q, hq⟩ := pyDiv_isSome hums.sum (hums.length : ℚ)
      (by exact_mod_cast fun hz => h (List.length_eq_zero.mp
        (by exact_mod_cast hz)))
    simp only [List.isEmpty_iff, h, if_false, hq, Option.bind_eq_bind,
      Option.some_bind]
    repeat' split
    all_goals exact ⟨_, rfl⟩

theorem analyze_medium_term_temperature_total
    (medium_term : List WeatherReading) :
    ∃ hl, analyze_medium_term_temperature medium_term = some hl := by
  unfold analyze_medium_term_temperature
  set temps := (medium_term.filter (fun f => f.temperature.isSome)).map
    (fun f => f.temperature.getD 0) with ht
  by_cases h : temps = []
  · exact ⟨[], by simp [h]⟩
  · obtain ⟨q1, hq1⟩ := pyMax_isSome (temps) h
    obtain ⟨q2, hq2⟩ := pyMin_isSome (temps) h
    simp only [List.isEmpty_iff, h, if_false, hq1, hq2, Option.bind_eq_bind,
      Option.some_bind]
    exact ⟨_, rfl⟩

theorem analyze_medium_term_wind_total (medium_term : List WeatherReading) :
    ∃ i, analyze_medium_term_wind medium_term = some i := by
  unfold analyze_medium_term_wind
  set winds := (medium_term.filter (fun f => f.wind_speed.isSome)).map
    (fun f => f.wind_speed.getD 0) with hw
  by_cases h : winds = []
  · exact ⟨⟨[], []⟩, by simp [h]⟩
  · obtain ⟨q1, hq1⟩ := pyMax_isSome (winds) h
    obtain ⟨q2, hq2⟩ := pyDiv_isSome winds.sum (winds.length : ℚ)
      (by exact_mod_cast fun hz => h (List.length_eq_zero.mp
        (by exact_mod_cast hz)))
    simp only [List.isEmpty_iff, h, if_false, hq1, hq2, Option.bind_eq_bind,
      Option.some_bind]
    repeat' split
    all_goals exact ⟨_, rfl⟩

theorem analyze_medium_term_pressure_total (medium_term : List WeatherReading)
    (current_pressure : ℚ) :
    ∃ i, analyze_medium_term_pressure medium_term current_pressure = some i := by
  unfold analyze_medium_term_pressure
  set ps := (medium_term.filter (fun f => f.pressure.isSome)).map
    (fun f => f.pressure.getD current_pressure) with hps
  by_cases h : ps.length > 1
  · have hne : ps ≠ [] := by
      intro hnil; rw [hnil] at h; simp at h
    obtain ⟨q1, hq1⟩ := pyLast_isSome (ps) hne
    obtain ⟨q2, hq2⟩ := pyHead_isSome (ps) hne
    simp only [h, if_true, hq1, hq2, Option.bind_eq_bind, Option.some_bind]
    repeat' split
    all_goals exact ⟨_, rfl⟩
  · exact ⟨⟨[], []⟩, by simp [h]⟩

theorem analyze_forecast_trends_total (forecast_data : List WeatherReading)
    (current_weather : WeatherReading) :
    ∃ i, analyze_forecast_trends forecast_data current_weather = some i := by
  unfold analyze_forecast_trends
  by_cases h : forecast_data.isEmpty
  · exact ⟨⟨[], []⟩, by simp [h]⟩
  · obtain ⟨it, hit⟩ := analyze_temperature_trends_total (forecast_data.take 12)
      (current_weather.temperature.getD 0)
    obtain ⟨ip, hip⟩ := analyze_pressure_trends_total (forecast_data.take 12)
      (current_weather.pressure.getD 1013)
    obtain ⟨ipr, hipr⟩ := analyze_precipitation_trends_total
      (forecast_data.take 12) current_weather
    obtain ⟨iw, hiw⟩ := analyze_wind_trends_total (forecast_data.take 12)
      current_weather
    obtain ⟨ih, hih⟩ := analyze_humidity_trends_total (forecast_data.take 12)
      current_weather
    obtain ⟨tm, htm⟩ := analyze_medium_term_temperature_total
      (forecast_data.take 48)
    obtain ⟨wm, hwm⟩ := analyze_medium_term_wind_total (forecast_data.take 48)
    obtain ⟨pm, hpm⟩ := analyze_medium_term_pressure_total
      (forecast_data.take 48) (current_weather.pressure.getD 1013)
    by_cases h1 : (forecast_data.take 12).length > 0 <;>
      by_cases h2 : (forecast_data.take 48).length > 24 <;>
      simp only [h, if_false, h1, h2, if_true, hit, hip, hipr, hiw, hih, htm,
        hwm, hpm, Option.bind_eq_bind, Option.some_bind, Bool.false_eq_true,
        Option.pure_def] <;>
      exact ⟨_, rfl⟩

theorem analyze_patterns_total (data : WeatherData) :
    ∃ a, analyze_patterns data = some a := by
  unfold analyze_patterns
  by_cases h : data.pyFalsy
  · exact ⟨minimalAnalysis, by simp [h]⟩
  · by_cases hfc : (extract_weather_data data).2.length > 0
    · obtain ⟨fi, hfi⟩ := analyze_forecast_trends_total
        (extract_weather_data data).2 (extract_weather_data data).1
      simp only [h, if_false, hfc, if_true, hfi, Option.bind_eq_bind,
        Option.some_bind, Bool.false_eq_true]
      exact ⟨_, rfl⟩
    · simp only [h, if_false, hfc, Bool.false_eq_true]
      exact ⟨_, rfl⟩

/-! ## Structural lemmas about the conditions lists -/

/-- The medium-term precipitation analyzer initialises a `conditions` list but
never appends to it (source lines 515-558). -/
theorem analyze_medium_term_precipitation_conditions_nil
    (medium_term forecast_data : List WeatherReading) :
    (analyze_medium_term_precipitation medium_term forecast_data).conditions =
      [] := by
  unfold analyze_medium_term_precipitation
  dsimp only
  split_ifs <;> rfl

/-- If the last element of a list passes the filter, it is also the last
element of the filtered list. -/
theorem filter_getLast?_of_last {α : Type} (p : α → Bool) :
    ∀ (l : List α) (e : α), l.getLast? = some e → p e = true →
      (l.filter p).getLast? = some e := by
  intro l
  induction l with
  | nil => intro e h _; simp at h
  | cons a l ih =>
      intro e h hp
      cases l with
      | nil =>
          simp at h
          subst h
          simp [List.filter, hp]
      | cons b l =>
          rw [List.getLast?_cons_cons] at h
          have htail := ih e h hp
          by_cases hpa : p a
          · rw [List.filter_cons_of_pos hpa]
            cases hfl : (b :: l).filter p with
            | nil => rw [hfl] at htail; simp at htail
            | cons c cs => rw [hfl] at htail; rw [List.getLast?_cons_cons]; exact htail
          · rw [List.filter_cons_of_neg (by simpa using hpa)]
            exact htail

/-- When the last near-term entry carries a temperature more than 1.5 °C
above the baseline, the temperature-trend analyzer returns exactly the
`warming_trend` tag. -/
theorem analyze_temperature_trends_warming (near_term : List WeatherReading)
    (current_temp : ℚ) (e : WeatherReading) (t : ℚ)
    (hlast : near_term.getLast? = some e) (he : e.temperature = some t)
    (hgt : t - current_temp > mkRat 3 2) :
    analyze_temperature_trends near_term current_temp =
      some ⟨["warming_trend"],
        [.tempRisingNext (t - current_temp) (min 12 near_term.length)]⟩ := by
  have hfilter : (near_term.filter (fun f => f.temperature.isSome)).getLast? =
      some e :=
    filter_getLast?_of_last _ near_term e hlast (by simp [he])
  have htemps : ((near_term.filter (fun f => f.temperature.isSome)).map
      (fun f => f.temperature.getD current_temp)).getLast? = some t := by
    rw [List.getLast?_map, hfilter]
    simp [he]
  have hne : ((near_term.filter (fun f => f.temperature.isSome)).map
      (fun f => f.temperature.getD current_temp)) ≠ [] := by
    intro hnil
    rw [hnil] at htemps
    simp at htemps
  unfold analyze_temperature_trends
  simp only [List.isEmpty_iff, hne, if_false, pyLast, htemps,
    Option.bind_eq_bind, Option.some_bind, hgt, if_true, Option.pure_def]

/-- Shape of a non-empty-forecast analysis: the result is built from the five
near-term analyzers, and the medium-term stage contributes no condition tags
at all (only the medium-term precipitation `conditions` list — always empty —
is merged at source line 683). -/
theorem analyze_forecast_trends_shape (forecast_data : List WeatherReading)
    (current_weather : WeatherReading) (hne : forecast_data ≠ []) :
    ∃ it ip ipr iw ih fi,
      analyze_temperature_trends (forecast_data.take 12)
        (current_weather.temperature.getD 0) = some it ∧
      analyze_pressure_trends (forecast_data.take 12)
        (current_weather.pressure.getD 1013) = some ip ∧
      analyze_precipitation_trends (forecast_data.take 12) current_weather =
        some ipr ∧
      analyze_wind_trends (forecast_data.take 12) current_weather = some iw ∧
      analyze_humidity_trends (forecast_data.take 12) current_weather =
        some ih ∧
      analyze_forecast_trends forecast_data current_weather = some fi ∧
      fi.conditions = it.conditions ++ ip.conditions ++ ipr.conditions ++
        iw.conditions ++ ih.conditions := by
  obtain ⟨it, hit⟩ := analyze_temperature_trends_total (forecast_data.take 12)
    (current_weather.temperature.getD 0)
  obtain ⟨ip, hip⟩ := analyze_pressure_trends_total (forecast_data.take 12)
    (current_weather.pressure.getD 1013)
  obtain ⟨ipr, hipr⟩ := analyze_precipitation_trends_total
    (forecast_data.take 12) current_weather
  obtain ⟨iw, hiw⟩ := analyze_wind_trends_total (forecast_data.take 12)
    current_weather
  obtain ⟨ih, hih⟩ := analyze_humidity_trends_total (forecast_data.take 12)
    current_weather
  obtain ⟨tm, htm⟩ := analyze_medium_term_temperature_total
    (forecast_data.take 48)
  obtain ⟨wm, hwm⟩ := analyze_medium_term_wind_total (forecast_data.take 48)
  obtain ⟨prm, hprm⟩ := analyze_medium_term_pressure_total
    (forecast_data.take 48) (current_weather.pressure.getD 1013)
  have h1 : (forecast_data.take 12).length > 0 := by
    cases forecast_data with
    | nil => exact absurd rfl hne
    | cons a l => simp
  refine ⟨it, ip, ipr, iw, ih, ?_⟩
  unfold analyze_forecast_trends
  by_cases h2 : (forecast_data.take 48).length > 24
  · simp only [List.isEmpty_iff, hne, if_false, h1, if_true, h2, hit, hip,
      hipr, hiw, hih, htm, hwm, hprm, Option.bind_eq_bind, Option.some_bind,
      Option.pure_def, true_and]
    refine ⟨_, rfl, ?_⟩
    simp [analyze_medium_term_precipitation_conditions_nil]
  · simp only [List.isEmpty_iff, hne, if_false, h1, if_true, h2, hit, hip,
      hipr, hiw, hih, Option.bind_eq_bind, Option.some_bind, Option.pure_def,
      true_and]
    refine ⟨_, rfl, ?_⟩
    simp

/-! ## Claims -/

/-- C1: for every input, `analyze_patterns` returns a result whose
`patterns_detected` equals the length of its `conditions_detected` list
(trend tags included); for falsy input the key is absent and
`patterns_detected` is 0. -/
theorem C1_patterns_detected_eq_length (d : WeatherData) :
    ∃ a, analyze_patterns d = some a ∧
      a.patterns_detected = (a.conditions_detected.getD []).length := by
  by_cases h : d.pyFalsy
  · refine ⟨minimalAnalysis, ?_, by simp [minimalAnalysis]⟩
    unfold analyze_patterns
    simp [h]
  · by_cases hfc : (extract_weather_data d).2.length > 0
    · obtain ⟨fi, hfi⟩ := analyze_forecast_trends_total
        (extract_weather_data d).2 (extract_weather_data d).1
      refine ⟨mkAnalysis (extract_weather_data d).1 (extract_weather_data d).2
        (baseConditions (extract_weather_data d).1 ++ fi.conditions)
        (.insights fi) (some fi.highlights), ?_, by simp [mkAnalysis]⟩
      unfold analyze_patterns
      simp only [h, if_false, hfc, if_true, hfi, Option.bind_eq_bind,
        Option.some_bind, Bool.false_eq_true]
    · refine ⟨mkAnalysis (extract_weather_data d).1 (extract_weather_data d).2
        (baseConditions (extract_weather_data d).1) .emptyList none, ?_,
        by simp [mkAnalysis]⟩
      unfold analyze_patterns
      simp only [h, if_false, hfc, Bool.false_eq_true]

/-- C2: every falsy input (None, empty dict, empty list) yields exactly the
minimal record: status "No data to analyze", `patterns_detected` 0, trend
"unknown", `data_points` 0, and every other key absent. -/
theorem C2_falsy_input_minimal_result (d : WeatherData)
    (h : d.pyFalsy = true) : analyze_patterns d = some minimalAnalysis := by
  unfold analyze_patterns
  simp [h]

/-- Witness for C2 at the concrete falsy input `None`. -/
theorem C2_falsy_input_minimal_result_witness :
    WeatherData.pyNone.pyFalsy = true ∧
      analyze_patterns WeatherData.pyNone = some minimalAnalysis :=
  ⟨rfl, C2_falsy_input_minimal_result WeatherData.pyNone rfl⟩

/-- C3: for non-falsy input, `data_points = 1 + length of the extracted
forecast`, and the returned `trend` is "insufficient_data" exactly when
`data_points < 2` and "analyzing" otherwise; it is never any
trend-detector tag such as "warming_trend". -/
theorem C3_data_points_and_trend (d : WeatherData) (h : d.pyFalsy = false) :
    ∃ a, analyze_patterns d = some a ∧
      a.data_points = 1 + (extract_weather_data d).2.length ∧
      (a.trend = "insufficient_data" ↔ a.data_points < 2) ∧
      (a.trend = "insufficient_data" ∨ a.trend = "analyzing") := by
  have hfalse : ¬d.pyFalsy = true := by simp [h]
  by_cases hfc : (extract_weather_data d).2.length > 0
  · obtain ⟨fi, hfi⟩ := analyze_forecast_trends_total
      (extract_weather_data d).2 (extract_weather_data d).1
    refine ⟨mkAnalysis (extract_weather_data d).1 (extract_weather_data d).2
      (baseConditions (extract_weather_data d).1 ++ fi.conditions)
      (.insights fi) (some fi.highlights), ?_, ?_⟩
    · unfold analyze_patterns
      simp only [hfalse, if_false, hfc, if_true, hfi, Option.bind_eq_bind,
        Option.some_bind, Bool.false_eq_true]
    · have h2 : ¬(1 + (extract_weather_data d).2.length < 2) := by omega
      refine ⟨rfl, ?_, ?_⟩
      · simp [mkAnalysis, h2]
      · simp [mkAnalysis, h2]
  · refine ⟨mkAnalysis (extract_weather_data d).1 (extract_weather_data d).2
      (baseConditions (extract_weather_data d).1) .emptyList none, ?_, ?_⟩
    · unfold analyze_patterns
      simp only [hfalse, if_false, hfc, Bool.false_eq_true]
    · have h2 : 1 + (extract_weather_data d).2.length < 2 := by omega
      refine ⟨rfl, ?_, ?_⟩
      · simp [mkAnalysis, h2]
      · simp [mkAnalysis, h2]

/-- Witness for C3 at a concrete non-falsy input. -/
theorem C3_data_points_and_trend_witness :
    (WeatherData.dict { reading := { temperature := some 22 } }).pyFalsy =
        false ∧
      ∃ a, analyze_patterns
          (WeatherData.dict { reading := { temperature := some 22 } }) =
          some a ∧
        a.data_points = 1 + (extract_weather_data
          (WeatherData.dict { reading := { temperature := some 22 } })).2.length ∧
        (a.trend = "insufficient_data" ↔ a.data_points < 2) ∧
        (a.trend = "insufficient_data" ∨ a.trend = "analyzing") :=
  ⟨by decide, C3_data_points_and_trend
    (WeatherData.dict { reading := { temperature := some 22 } }) (by decide)⟩

/-- C7: the analyzer is total on the whole input universe — absent fields
are skipped or defaulted, and no guarded numeric computation ever fails
(`none` would model an uncaught Python exception). -/
theorem C7_analyzer_never_raises (d : WeatherData) :
    ∃ a, analyze_patterns d = some a :=
  analyze_patterns_total d

/-- The C8 reading: temperature −5 °C, humidity 95 %, pressure 980 hPa,
precipitation 8 mm, no forecast. -/
def ex8reading : WeatherReading :=
  { temperature := some (-5), humidity := some 95, pressure := some 980,
    precipitation_mm := some 8 }

/-- C8: the extreme reading yields exactly the five tags freezing /
high-humidity / low-pressure / heavy-precipitation / freezing-precipitation
warning, in evaluation order. -/
theorem C8_extreme_reading_conditions :
    analyze_patterns (WeatherData.dict { reading := ex8reading }) =
      some { status := "Analysis complete"
             patterns_detected := 5
             trend := "insufficient_data"
             data_points := 1
             timestamp := some "unknown"
             forecast_hours := some 0
             conditions_detected := some ["freezing_temperature",
               "high_humidity", "low_pressure", "heavy_precipitation",
               "freezing_precipitation_warning"]
             forecast_insights := .emptyList
             summary := some ("Detected 5 notable conditions: " ++
               "freezing_temperature, high_humidity, low_pressure, " ++
               "heavy_precipitation, freezing_precipitation_warning")
             forecast_highlights := none } := by
  decide

/-- C4: the base temperature classifier emits at most one tag, the priority
chain collapses to disjoint bands (freezing below 0, hot above 30,
comfortable in 20..25, very cold in 0..5, warm in 25..30, nothing in 5..20),
and an absent temperature yields no tag. -/
theorem C4_temperature_classifier_bands :
    analyze_temperature_conditions none = [] ∧
    ∀ t : ℚ,
      (("freezing_temperature" ∈ analyze_temperature_conditions (some t)) ↔
        t < 0) ∧
      (("hot_temperature" ∈ analyze_temperature_conditions (some t)) ↔
        30 < t) ∧
      (("comfortable_temperature" ∈ analyze_temperature_conditions (some t)) ↔
        20 ≤ t ∧ t ≤ 25) ∧
      (("very_cold_temperature" ∈ analyze_temperature_conditions (some t)) ↔
        0 ≤ t ∧ t < 5) ∧
      (("warm_temperature" ∈ analyze_temperature_conditions (some t)) ↔
        25 < t ∧ t ≤ 30) ∧
      (analyze_temperature_conditions (some t)).length ≤ 1 ∧
      ((analyze_temperature_conditions (some t)) = [] ↔ 5 ≤ t ∧ t < 20) := by
  refine ⟨rfl, fun t => ?_⟩
  unfold analyze_temperature_conditions
  dsimp only
  split_ifs with h1 h2 h3 h4 h5 <;>
    refine ⟨?_, ?_, ?_, ?_, ?_, ?_, ?_⟩ <;>
    simp +decide <;>
    intros <;>
    first
      | linarith
      | (constructor <;> intros <;> linarith)
      | (rcases not_and_or.mp h3 with h | h <;> push_neg at h <;> linarith)
      | (constructor <;> intros <;>
          (rcases not_and_or.mp h3 with h | h <;> push_neg at h <;> linarith))

/-- Three near-term hours with precipitation: two in the warm band (10 °C),
one in the mix band (3 °C), none in the cold band. -/
def ex5near : List WeatherReading :=
  [ { temperature := some 10, precipitation_mm := some 1 },
    { temperature := some 10, precipitation_mm := some 1 },
    { temperature := some 3, precipitation_mm := some 1 } ]

/-- C5 counterexample: the warm band has the most qualifying hours (2 over
1 over 0), yet the emitted tag is `mix_precipitation_expected`, not the
warm-band tag `precipitation_expected`: the dominant band does not decide
the tag. -/
theorem C5_counterexample_warm_majority_mix_tag :
    warmPrecipCount ex5near 0 = 2 ∧ mixPrecipCount ex5near 0 = 1 ∧
    coldPrecipCount ex5near 0 = 0 ∧
    emptyReading.temperature.getD 0 = 0 ∧
    analyze_precipitation_trends ex5near emptyReading =
      some ⟨["mix_precipitation_expected"], [.mixExpected 3 3]⟩ := by
  refine ⟨by decide, by decide, by decide, rfl, by with_unfolding_all rfl⟩

/-- C5 (amended): when some near-term hour has positive precipitation the
tag is `snow_precipitation_expected` iff the cold band strictly beats both
other bands; otherwise `mix_precipitation_expected` iff the mix band is
non-empty; otherwise `precipitation_expected`. -/
theorem C5_amended_precipitation_type (near_term : List WeatherReading)
    (current_weather : WeatherReading)
    (h : (near_term.map (fun f => f.precipitation_mm.getD 0)).any
      (fun p => p > 0) = true) :
    ∃ i, analyze_precipitation_trends near_term current_weather = some i ∧
      i.conditions =
        [if coldPrecipCount near_term (current_weather.temperature.getD 0) >
              warmPrecipCount near_term (current_weather.temperature.getD 0) ∧
            coldPrecipCount near_term (current_weather.temperature.getD 0) >
              mixPrecipCount near_term (current_weather.temperature.getD 0)
          then "snow_precipitation_expected"
          else if mixPrecipCount near_term
              (current_weather.temperature.getD 0) > 0
          then "mix_precipitation_expected"
          else "precipitation_expected"] := by
  have hne : near_term ≠ [] := by
    intro hnil
    rw [hnil] at h
    simp at h
  have hprobs : (near_term.map
      (fun f => f.precipitation_probability.getD 0)) ≠ [] := by
    simpa using hne
  obtain ⟨q, hq⟩ := pyMax_isSome (near_term.map
    (fun f => f.precipitation_probability.getD 0)) hprobs
  unfold analyze_precipitation_trends
  simp only [h, if_true, List.isEmpty_iff, hprobs, if_false, hq,
    Option.bind_eq_bind, Option.some_bind, Option.pure_def]
  refine ⟨_, rfl, ?_⟩
  split_ifs <;> rfl

/-- Witness for the amended C5 at the concrete mixed input. -/
theorem C5_amended_precipitation_type_witness :
    ((ex5near.map (fun f => f.precipitation_mm.getD 0)).any
      (fun p => p > 0) = true) ∧
    ∃ i, analyze_precipitation_trends ex5near emptyReading = some i ∧
      i.conditions =
        [if coldPrecipCount ex5near (emptyReading.temperature.getD 0) >
              warmPrecipCount ex5near (emptyReading.temperature.getD 0) ∧
            coldPrecipCount ex5near (emptyReading.temperature.getD 0) >
              mixPrecipCount ex5near (emptyReading.temperature.getD 0)
          then "snow_precipitation_expected"
          else if mixPrecipCount ex5near
              (emptyReading.temperature.getD 0) > 0
          then "mix_precipitation_expected"
          else "precipitation_expected"] :=
  ⟨by decide, C5_amended_precipitation_type ex5near emptyReading (by decide)⟩

/-- A 25-entry forecast whose medium-term pressures fall from 1013 hPa to
1001 hPa: a drop of 12 hPa from first to last. -/
def ex6forecast : List WeatherReading :=
  (List.range 25).map (fun i =>
    { pressure := some (if i = 24 then 1001 else 1013) })

set_option maxRecDepth 10000 in
/-- C6: at this >24-entry forecast the medium-term pressure analyzer itself
produces the `storm_prediction` tag (the drop is below −10 hPa) together
with the pressure-drop highlight, but `analyze_forecast_trends` merges only
the medium-term *precipitation* conditions (source line 683), so the
returned `forecast_insights.conditions` is empty — the tag never reaches
the caller, only the highlight does. -/
theorem C6_storm_prediction_never_propagated :
    ex6forecast.length = 25 ∧
    analyze_medium_term_pressure (ex6forecast.take 48) 1013 =
      some ⟨["storm_prediction"], [.pressureDrop48 (-12)]⟩ ∧
    analyze_forecast_trends ex6forecast emptyReading =
      some ⟨[], [.pressureDrop48 (-12)]⟩ := by
  refine ⟨by decide, by with_unfolding_all rfl, by with_unfolding_all rfl⟩

/-! ## No classifier or trend analyzer ever emits "precipitation_soon"
except the unreachable branch of `analyze_precipitation_trends` -/

theorem no_soon_temp (t : Option ℚ) :
    "precipitation_soon" ∉ analyze_temperature_conditions t := by
  cases t
  · decide
  · unfold analyze_temperature_conditions
    dsimp only
    split_ifs <;> decide

theorem no_soon_hum (h : Option ℚ) :
    "precipitation_soon" ∉ analyze_humidity_conditions h := by
  cases h
  · decide
  · unfold analyze_humidity_conditions
    dsimp only
    split_ifs <;> decide

theorem no_soon_pres (p : Option ℚ) :
    "precipitation_soon" ∉ analyze_pressure_conditions p := by
  cases p
  · decide
  · unfold analyze_pressure_conditions
    dsimp only
    split_ifs <;> decide

theorem no_soon_precip (p : ℚ) (cw : WeatherReading) :
    "precipitation_soon" ∉ analyze_precipitation_conditions p cw := by
  unfold analyze_precipitation_conditions
  split_ifs <;> decide

theorem no_soon_wind (w : Option ℚ) :
    "precipitation_soon" ∉ analyze_wind_conditions w := by
  cases w
  · decide
  · unfold analyze_wind_conditions
    dsimp only
    split_ifs <;> decide

theorem no_soon_cloud (c : Option ℚ) :
    "precipitation_soon" ∉ analyze_cloud_cover_conditions c := by
  cases c
  · decide
  · unfold analyze_cloud_cover_conditions
    dsimp only
    split_ifs <;> decide

theorem no_soon_tp (t : Option ℚ) (p : ℚ) :
    "precipitation_soon" ∉ analyze_temperature_precipitation_conditions t p := by
  unfold analyze_temperature_precipitation_conditions
  cases t <;> dsimp only <;>
    first
      | decide
      | (split_ifs <;> decide)

theorem no_soon_pp (p : ℚ) :
    "precipitation_soon" ∉ analyze_precipitation_probability_conditions p := by
  unfold analyze_precipitation_probability_conditions
  split_ifs <;> decide

theorem no_soon_atm (t h : Option ℚ) :
    "precipitation_soon" ∉ analyze_atmospheric_conditions t h := by
  unfold analyze_atmospheric_conditions
  cases t <;> cases h <;> dsimp only <;>
    first
      | decide
      | (split_ifs <;> decide)

theorem no_soon_base (cw : WeatherReading) :
    "precipitation_soon" ∉ baseConditions cw := by
  unfold baseConditions analyze_detailed_weather_conditions
  simp only [List.mem_append, not_or]
  exact ⟨⟨⟨⟨no_soon_temp _, no_soon_hum _⟩, no_soon_pres _⟩,
      no_soon_precip _ _⟩,
    ⟨⟨⟨no_soon_wind _, no_soon_cloud _⟩, no_soon_tp _ _⟩, no_soon_pp _⟩,
    no_soon_atm _ _⟩

theorem no_soon_temp_trends (near_term : List WeatherReading) (ct : ℚ) :
    "precipitation_soon" ∉
      ((analyze_temperature_trends near_term ct).getD ⟨[], []⟩).conditions := by
  unfold analyze_temperature_trends
  set temps := (near_term.filter (fun f => f.temperature.isSome)).map
    (fun f => f.temperature.getD ct) with ht
  by_cases h : temps = []
  · simp [h]
  · obtain ⟨q, hq⟩ := pyLast_isSome (temps) h
    simp only [List.isEmpty_iff, h, if_false, hq, Option.bind_eq_bind,
      Option.some_bind, Option.pure_def]
    split_ifs <;> simp +decide

theorem no_soon_pressure_trends (near_term : List WeatherReading) (cp : ℚ) :
    "precipitation_soon" ∉
      ((analyze_pressure_trends near_term cp).getD ⟨[], []⟩).conditions := by
  unfold analyze_pressure_trends
  set ps := (near_term.filter (fun f => f.pressure.isSome)).map
    (fun f => f.pressure.getD cp) with hps
  by_cases h : ps = []
  · simp [h]
  · obtain ⟨q, hq⟩ := pyLast_isSome (ps) h
    simp only [List.isEmpty_iff, h, if_false, hq, Option.bind_eq_bind,
      Option.some_bind, Option.pure_def]
    split_ifs <;> simp +decide

theorem no_soon_wind_trends (near_term : List WeatherReading)
    (cw : WeatherReading) :
    "precipitation_soon" ∉
      ((analyze_wind_trends near_term cw).getD ⟨[], []⟩).conditions := by
  unfold analyze_wind_trends
  set winds := (near_term.filter (fun f => f.wind_speed.isSome)).map
    (fun f => f.wind_speed.getD 0) with hw
  by_cases h : winds = []
  · simp [h]
  · obtain ⟨q1, hq1⟩ := pyMax_isSome (winds) h
    obtain ⟨q2, hq2⟩ := pyMin_isSome (winds) h
    simp only [List.isEmpty_iff, h, if_false, hq1, hq2, Option.bind_eq_bind,
      Option.some_bind, Option.pure_def]
    split_ifs <;> simp +decide

theorem no_soon_humidity_trends (near_term : List WeatherReading)
    (cw : WeatherReading) :
    "precipitation_soon" ∉
      ((analyze_humidity_trends near_term cw).getD ⟨[], []⟩).conditions := by
  unfold analyze_humidity_trends
  set hums := (near_term.filter (fun f => f.humidity.isSome)).map
    (fun f => f.humidity.getD (cw.humidity.getD 0)) with hh
  by_cases h : hums = []
  · simp [h]
  · obtain ⟨q, hq⟩ := pyDiv_isSome hums.sum (hums.length : ℚ)
      (by exact_mod_cast fun hz => h (List.length_eq_zero.mp
        (by exact_mod_cast hz)))
    simp only [List.isEmpty_iff, h, if_false, hq, Option.bind_eq_bind,
      Option.some_bind, Option.pure_def]
    split_ifs <;> simp +decide

/-- The "precipitation_soon" branch of the near-term precipitation analyzer
is unreachable: it requires precipitation in the first three entries while
the full window has none, yet the first three entries lie inside the full
window. -/
theorem no_soon_precip_trends (near_term : List WeatherReading)
    (cw : WeatherReading) :
    "precipitation_soon" ∉
      ((analyze_precipitation_trends near_term cw).getD ⟨[], []⟩).conditions := by
  unfold analyze_precipitation_trends
  by_cases h : (near_term.map (fun f => f.precipitation_mm.getD 0)).any
    (fun p => p > 0)
  · have hne : near_term ≠ [] := by
      intro hnil; rw [hnil] at h; simp at h
    have hprobs : (near_term.map
        (fun f => f.precipitation_probability.getD 0)) ≠ [] := by
      simpa using hne
    obtain ⟨q, hq⟩ := pyMax_isSome (near_term.map
      (fun f => f.precipitation_probability.getD 0)) hprobs
    simp only [h, if_true, List.isEmpty_iff, hprobs, if_false, hq,
      Option.bind_eq_bind, Option.some_bind, Option.pure_def]
    split_ifs <;> simp +decide
  · dsimp only
    rw [if_neg h]
    by_cases h3 : ((near_term.map (fun f => f.precipitation_mm.getD 0)).take
      3).any (fun p => p > 0)
    · exfalso
      rw [List.any_eq_true] at h3
      obtain ⟨x, hx, hpx⟩ := h3
      exact h (List.any_eq_true.mpr ⟨x, List.take_subset _ _ hx, hpx⟩)
    · rw [if_neg h3]
      split_ifs <;> simp +decide

/-- C9: no input ever makes `analyze_patterns` emit "precipitation_soon" —
the emitting branch requires precipitation in the first three near-term
entries but none in the whole near-term window, which is unsatisfiable. -/
theorem C9_precipitation_soon_unreachable (d : WeatherData) :
    ∃ a, analyze_patterns d = some a ∧
      "precipitation_soon" ∉ a.conditions_detected.getD [] := by
  by_cases h : d.pyFalsy
  · refine ⟨minimalAnalysis, ?_, by simp [minimalAnalysis]⟩
    unfold analyze_patterns
    simp [h]
  · by_cases hfc : (extract_weather_data d).2.length > 0
    · have hne : (extract_weather_data d).2 ≠ [] := by
        intro hnil
        rw [hnil] at hfc
        simp at hfc
      obtain ⟨it, ip, ipr, iw, ih, fi, hit, hip, hipr, hiw, hih, hfi, hconds⟩ :=
        analyze_forecast_trends_shape (extract_weather_data d).2
          (extract_weather_data d).1 hne
      have HT := no_soon_temp_trends ((extract_weather_data d).2.take 12)
        ((extract_weather_data d).1.temperature.getD 0)
      rw [hit, Option.getD_some] at HT
      have HP := no_soon_pressure_trends ((extract_weather_data d).2.take 12)
        ((extract_weather_data d).1.pressure.getD 1013)
      rw [hip, Option.getD_some] at HP
      have HPR := no_soon_precip_trends ((extract_weather_data d).2.take 12)
        (extract_weather_data d).1
      rw [hipr, Option.getD_some] at HPR
      have HW := no_soon_wind_trends ((extract_weather_data d).2.take 12)
        (extract_weather_data d).1
      rw [hiw, Option.getD_some] at HW
      have HH := no_soon_humidity_trends ((extract_weather_data d).2.take 12)
        (extract_weather_data d).1
      rw [hih, Option.getD_some] at HH
      refine ⟨mkAnalysis (extract_weather_data d).1 (extract_weather_data d).2
        (baseConditions (extract_weather_data d).1 ++ fi.conditions)
        (.insights fi) (some fi.highlights), ?_, ?_⟩
      · unfold analyze_patterns
        simp only [h, if_false, hfc, if_true, hfi, Option.bind_eq_bind,
          Option.some_bind, Bool.false_eq_true]
      · simp only [mkAnalysis, Option.getD_some]
        rw [hconds]
        simp only [List.mem_append, not_or]
        exact ⟨no_soon_base _, ⟨⟨⟨⟨HT, HP⟩, HPR⟩, HW⟩, HH⟩⟩
    · refine ⟨mkAnalysis (extract_weather_data d).1 (extract_weather_data d).2
        (baseConditions (extract_weather_data d).1) .emptyList none, ?_, ?_⟩
      · unfold analyze_patterns
        simp only [h, if_false, hfc, Bool.false_eq_true]
      · simp only [mkAnalysis, Option.getD_some]
        exact no_soon_base _

/-- The near-term precipitation analyzer reads the current reading only
through `.get("temperature", 0)` and `.get("precipitation_mm", 0)`; pinning
an absent temperature to 0 does not change it. -/
theorem precip_trends_update_temp (near_term : List WeatherReading)
    (cw : WeatherReading) (h1 : cw.temperature = none) :
    analyze_precipitation_trends near_term {cw with temperature := some 0} =
      analyze_precipitation_trends near_term cw := by
  unfold analyze_precipitation_trends
  rw [h1]
  rfl

/-- The near-term precipitation analyzer never reads the current pressure. -/
theorem precip_trends_update_pres (near_term : List WeatherReading)
    (cw : WeatherReading) :
    analyze_precipitation_trends near_term {cw with pressure := some 1013} =
      analyze_precipitation_trends near_term cw := rfl

/-- The wind-trend analyzer reads only the current wind speed. -/
theorem wind_trends_update_temp (near_term : List WeatherReading)
    (cw : WeatherReading) :
    analyze_wind_trends near_term {cw with temperature := some 0} =
      analyze_wind_trends near_term cw := rfl

/-- The wind-trend analyzer never reads the current pressure. -/
theorem wind_trends_update_pres (near_term : List WeatherReading)
    (cw : WeatherReading) :
    analyze_wind_trends near_term {cw with pressure := some 1013} =
      analyze_wind_trends near_term cw := rfl

/-- The humidity-trend analyzer reads only the current humidity. -/
theorem humidity_trends_update_temp (near_term : List WeatherReading)
    (cw : WeatherReading) :
    analyze_humidity_trends near_term {cw with temperature := some 0} =
      analyze_humidity_trends near_term cw := rfl

/-- The humidity-trend analyzer never reads the current pressure. -/
theorem humidity_trends_update_pres (near_term : List WeatherReading)
    (cw : WeatherReading) :
    analyze_humidity_trends near_term {cw with pressure := some 1013} =
      analyze_humidity_trends near_term cw := rfl

/-- C10: each absent baseline field is substituted independently by its
fixed default — an absent current temperature behaves exactly as 0 °C
(whatever the pressure field holds), an absent current pressure exactly as
1013 hPa (whatever the temperature field holds) — and, with only the
temperature absent, a near-term window whose last entry is warmer than
1.5 °C still produces the warming_trend tag. -/
theorem C10_absent_current_defaults (forecast_data : List WeatherReading)
    (cw : WeatherReading) :
    (cw.temperature = none →
      analyze_forecast_trends forecast_data {cw with temperature := some 0} =
        analyze_forecast_trends forecast_data cw) ∧
    (cw.pressure = none →
      analyze_forecast_trends forecast_data {cw with pressure := some 1013} =
        analyze_forecast_trends forecast_data cw) ∧
    (cw.temperature = none →
      ∀ e t, (forecast_data.take 12).getLast? = some e →
        e.temperature = some t → t > mkRat 3 2 →
        ∃ i, analyze_forecast_trends forecast_data cw = some i ∧
          "warming_trend" ∈ i.conditions) := by
  refine ⟨?_, ?_, ?_⟩
  · intro h1
    have hpr : ∀ nt, analyze_precipitation_trends nt
        {cw with temperature := some 0} =
          analyze_precipitation_trends nt cw :=
      fun nt => precip_trends_update_temp nt cw h1
    unfold analyze_forecast_trends
    simp only [h1, hpr, wind_trends_update_temp, humidity_trends_update_temp,
      Option.getD_some, Option.getD_none]
  · intro h2
    unfold analyze_forecast_trends
    simp only [h2, precip_trends_update_pres, wind_trends_update_pres,
      humidity_trends_update_pres, Option.getD_some, Option.getD_none]
  · intro h1 e t hlast he hgt
    have hne : forecast_data ≠ [] := by
      intro hnil
      rw [hnil] at hlast
      simp at hlast
    obtain ⟨it, ip, ipr, iw, ih, fi, hit, hip, hipr, hiw, hih, hfi, hconds⟩ :=
      analyze_forecast_trends_shape forecast_data cw hne
    have hw := analyze_temperature_trends_warming (forecast_data.take 12)
      (cw.temperature.getD 0) e t hlast he
      (by rw [h1]; simpa using hgt)
    rw [hw] at hit
    have hR := Option.some.inj hit
    refine ⟨fi, hfi, ?_⟩
    rw [hconds, ← hR]
    simp

/-- A one-entry forecast at 2 °C for the C10 witness. -/
def ex10fc : List WeatherReading := [{ temperature := some 2 }]

/-- Witness for C10 at a current reading with both baseline fields absent:
both per-field substitutions hold there, and the 2 °C near-term entry
yields warming_trend. -/
theorem C10_absent_current_defaults_witness :
    emptyReading.temperature = none ∧ emptyReading.pressure = none ∧
    (analyze_forecast_trends ex10fc {emptyReading with temperature := some 0} =
      analyze_forecast_trends ex10fc emptyReading) ∧
    (analyze_forecast_trends ex10fc {emptyReading with pressure := some 1013} =
      analyze_forecast_trends ex10fc emptyReading) ∧
    (ex10fc.take 12).getLast? = some { temperature := some 2 } ∧
    ({ temperature := some 2 } : WeatherReading).temperature = some 2 ∧
    ((2 : ℚ) > mkRat 3 2) ∧
    ∃ i, analyze_forecast_trends ex10fc emptyReading = some i ∧
      "warming_trend" ∈ i.conditions :=
  ⟨rfl, rfl,
    (C10_absent_current_defaults ex10fc emptyReading).1 rfl,
    (C10_absent_current_defaults ex10fc emptyReading).2.1 rfl,
    rfl, rfl, by decide,
    (C10_absent_current_defaults ex10fc emptyReading).2.2 rfl
      { temperature := some 2 } 2 rfl rfl (by decide)⟩
